import Mathlib

/-!
Verification development for the pdf_email activation server.

Shallow embedding of the license-token codec (`src/utils/code_generator.py`,
`generate_professional_activation_code` and friends in
`src/activation_server.py`), the device-activation store declared in
`src/database/init_db.py`, and the `/api/verify` handler.

Modelling conventions:
* bytes are `Nat` values `< 256` in a `List Nat`;
* `hashlib.md5` is implemented concretely (RFC 1321);
* `base64.urlsafe_b64encode`/`urlsafe_b64decode` are implemented concretely;
  decoding follows CPython's lenient (non-strict) behaviour: characters
  outside the alphabet (including `=` padding) are discarded, and a data
  length of 1 modulo 4 is an error;
* timestamps (`datetime.now()`, ISO strings) are modelled as integer seconds
  serialized in decimal, which is order-isomorphic to ISO-8601 strings under
  `datetime.fromisoformat`; `timedelta(days = d)` is `d * 86400` seconds and
  `timedelta.days` is division by `86400`;
* the Fernet cipher is external (`cryptography.fernet`); code is parametric
  over a `Cipher` record of an encrypt function and a fallible decrypt
  function, and concrete instances are supplied where theorems are evaluated;
* Python exceptions caught by the source are modelled with `Except String`,
  the carried string standing for `str(e)`; distinct failure stages produce
  the distinct texts the corresponding Python exceptions produce
  (`str(InvalidToken())` is the empty string).
-/

set_option maxRecDepth 100000
set_option maxHeartbeats 4000000

/-- Split a list into chunks of `n`, fuelled to stay structural. -/
def chunkFuel : Nat → Nat → List α → List (List α)
  | 0, _, _ => []
  | _ + 1, _, [] => []
  | f + 1, n, l => l.take n :: chunkFuel f n (l.drop n)

/-- `chunkList n l` splits `l` into consecutive chunks of length `n`. -/
def chunkList (n : Nat) (l : List α) : List (List α) :=
  chunkFuel l.length n l

/-- Slices `s[i:i+n]` for `i in range(0, len(s), n)`, as in the Python code. -/
def chunkStr (n : Nat) (s : String) : List String :=
  (chunkList n s.data).map (fun l => String.mk l)

/-- One UTF-8 encoded character (model of `str.encode()` per code point). -/
def utf8EncodeChar (c : Char) : List Nat :=
  let n := c.toNat
  if n < 128 then [n]
  else if n < 2048 then [192 + n / 64, 128 + n % 64]
  else if n < 65536 then
    [224 + n / 4096, 128 + n / 64 % 64, 128 + n % 64]
  else
    [240 + n / 262144, 128 + n / 4096 % 64, 128 + n / 64 % 64, 128 + n % 64]

/-- Model of Python `str.encode()` (UTF-8 bytes of a string). -/
def utf8Encode (s : String) : List Nat :=
  (s.data.map utf8EncodeChar).flatten

/-- Fuelled UTF-8 decoder core, rejecting malformed sequences as Python
`bytes.decode()` does (continuation bytes, overlongs, surrogates). -/
def utf8DecodeAux : Nat → List Nat → Option (List Char)
  | _, [] => some []
  | 0, _ :: _ => none
  | f + 1, b :: rest =>
    if b < 128 then
      (utf8DecodeAux f rest).map (fun cs => Char.ofNat b :: cs)
    else if b < 194 then none
    else if b < 224 then
      match rest with
      | b1 :: r =>
        if 128 ≤ b1 ∧ b1 < 192 then
          (utf8DecodeAux f r).map
            (fun cs => Char.ofNat ((b - 192) * 64 + (b1 - 128)) :: cs)
        else none
      | [] => none
    else if b < 240 then
      match rest with
      | b1 :: b2 :: r =>
        if (128 ≤ b1 ∧ b1 < 192) ∧ (128 ≤ b2 ∧ b2 < 192) then
          let n := (b - 224) * 4096 + (b1 - 128) * 64 + (b2 - 128)
          if 2048 ≤ n ∧ ¬(55296 ≤ n ∧ n < 57344) then
            (utf8DecodeAux f r).map (fun cs => Char.ofNat n :: cs)
          else none
        else none
      | _ => none
    else if b < 245 then
      match rest with
      | b1 :: b2 :: b3 :: r =>
        if (128 ≤ b1 ∧ b1 < 192) ∧ (128 ≤ b2 ∧ b2 < 192) ∧
            (128 ≤ b3 ∧ b3 < 192) then
          let n := (b - 240) * 262144 + (b1 - 128) * 4096 +
            (b2 - 128) * 64 + (b3 - 128)
          if 65536 ≤ n ∧ n < 1114112 then
            (utf8DecodeAux f r).map (fun cs => Char.ofNat n :: cs)
          else none
        else none
      | _ => none
    else none

/-- Model of Python `bytes.decode()` (strict UTF-8). -/
def utf8Decode (bs : List Nat) : Option String :=
  (utf8DecodeAux bs.length bs).map String.mk

/-- The 64 MD5 sine-derived round constants (RFC 1321). -/
def md5K : List Nat :=
  [0xd76aa478, 0xe8c7b756, 0x242070db, 0xc1bdceee,
   0xf57c0faf, 0x4787c62a, 0xa8304613, 0xfd469501,
   0x698098d8, 0x8b44f7af, 0xffff5bb1, 0x895cd7be,
   0x6b901122, 0xfd987193, 0xa679438e, 0x49b40821,
   0xf61e2562, 0xc040b340, 0x265e5a51, 0xe9b6c7aa,
   0xd62f105d, 0x02441453, 0xd8a1e681, 0xe7d3fbc8,
   0x21e1cde6, 0xc33707d6, 0xf4d50d87, 0x455a14ed,
   0xa9e3e905, 0xfcefa3f8, 0x676f02d9, 0x8d2a4c8a,
   0xfffa3942, 0x8771f681, 0x6d9d6122, 0xfde5380c,
   0xa4beea44, 0x4bdecfa9, 0xf6bb4b60, 0xbebfbc70,
   0x289b7ec6, 0xeaa127fa, 0xd4ef3085, 0x04881d05,
   0xd9d4d039, 0xe6db99e5, 0x1fa27cf8, 0xc4ac5665,
   0xf4292244, 0x432aff97, 0xab9423a7, 0xfc93a039,
   0x655b59c3, 0x8f0ccc92, 0xffeff47d, 0x85845dd1,
   0x6fa87e4f, 0xfe2ce6e0, 0xa3014314, 0x4e0811a1,
   0xf7537e82, 0xbd3af235, 0x2ad7d2bb, 0xeb86d391]

/-- The MD5 per-round left-rotation amounts. -/
def md5S : List Nat :=
  [7, 12, 17, 22, 7, 12, 17, 22, 7, 12, 17, 22, 7, 12, 17, 22,
   5, 9, 14, 20, 5, 9, 14, 20, 5, 9, 14, 20, 5, 9, 14, 20,
   4, 11, 16, 23, 4, 11, 16, 23, 4, 11, 16, 23, 4, 11, 16, 23,
   6, 10, 15, 21, 6, 10, 15, 21, 6, 10, 15, 21, 6, 10, 15, 21]

/-- 32-bit left rotation on `Nat` values below `2 ^ 32`. -/
def rotl32 (x s : Nat) : Nat :=
  (x * 2 ^ s) % 4294967296 + x / 2 ^ (32 - s)

/-- MD5 padding: `0x80`, zeros to 56 mod 64, then the bit length
little-endian over 8 bytes. -/
def md5Pad (m : List Nat) : List Nat :=
  let x := (m.length + 1) % 64
  let z := (120 - x) % 64
  let bitLen := (8 * m.length) % 2 ^ 64
  m ++ [128] ++ List.replicate z 0 ++
    (List.range 8).map (fun i => bitLen / 256 ^ i % 256)

/-- One MD5 round: state `(A, B, C, D)` and round index `i` over the
16-word message block `M`. -/
def md5Step (M : List Nat) (st : Nat × Nat × Nat × Nat) (i : Nat) :
    Nat × Nat × Nat × Nat :=
  let (a, b, c, d) := st
  let f :=
    if i < 16 then (b &&& c) ||| ((b ^^^ 4294967295) &&& d)
    else if i < 32 then (d &&& b) ||| ((d ^^^ 4294967295) &&& c)
    else if i < 48 then b ^^^ c ^^^ d
    else c ^^^ (b ||| (d ^^^ 4294967295))
  let g :=
    if i < 16 then i
    else if i < 32 then (5 * i + 1) % 16
    else if i < 48 then (3 * i + 5) % 16
    else 7 * i % 16
  let tmp := (a + f + md5K.getD i 0 + M.getD g 0) % 4294967296
  let nb := (b + rotl32 tmp (md5S.getD i 0)) % 4294967296
  (d, nb, b, c)

/-- Process one 64-byte block into the running MD5 state. -/
def md5Block (st : Nat × Nat × Nat × Nat) (block : List Nat) :
    Nat × Nat × Nat × Nat :=
  let M := (List.range 16).map (fun j =>
    block.getD (4 * j) 0 + block.getD (4 * j + 1) 0 * 256 +
    block.getD (4 * j + 2) 0 * 65536 + block.getD (4 * j + 3) 0 * 16777216)
  let (a0, b0, c0, d0) := st
  let (a, b, c, d) := (List.range 64).foldl (md5Step M) st
  ((a0 + a) % 4294967296, (b0 + b) % 4294967296,
   (c0 + c) % 4294967296, (d0 + d) % 4294967296)

/-- MD5 digest of a byte list, as 16 bytes. -/
def md5Bytes (m : List Nat) : List Nat :=
  let blocks := chunkList 64 (md5Pad m)
  let (a, b, c, d) :=
    blocks.foldl md5Block (0x67452301, 0xefcdab89, 0x98badcfe, 0x10325476)
  ((List.range 4).map (fun i => a / 256 ^ i % 256)) ++
  ((List.range 4).map (fun i => b / 256 ^ i % 256)) ++
  ((List.range 4).map (fun i => c / 256 ^ i % 256)) ++
  ((List.range 4).map (fun i => d / 256 ^ i % 256))

/-- A lowercase hexadecimal digit. -/
def hexDigit (n : Nat) : Char :=
  if n < 10 then Char.ofNat (48 + n) else Char.ofNat (87 + n)

/-- Lowercase hex string of a byte list (model of `hexdigest()`). -/
def hexOfBytes (bs : List Nat) : String :=
  String.mk ((bs.map (fun b => [hexDigit (b / 16), hexDigit (b % 16)])).flatten)

/-- Model of `hashlib.md5(s.encode()).hexdigest()`. -/
def md5hex (s : String) : String :=
  hexOfBytes (md5Bytes (utf8Encode s))

/-- Model of `hashlib.md5(s.encode()).hexdigest()[:8]`, the truncated
checksum used by the codec. -/
def md5hex8 (s : String) : String :=
  (md5hex s).take 8

/-- The URL-safe base64 alphabet used by `base64.urlsafe_b64encode`. -/
def b64Alphabet : List Char :=
  "ABCDEFGHIJKLMNOPQRSTUVWXYZabcdefghijklmnopqrstuvwxyz0123456789-_".data

/-- Character of a 6-bit value. -/
def b64CharOf (n : Nat) : Char :=
  b64Alphabet.getD n 'A'

/-- 6-bit value of an alphabet character, `none` outside the alphabet. -/
def b64ValOf (c : Char) : Option Nat :=
  let i := b64Alphabet.indexOf c
  if i < 64 then some i else none

/-- Encode one group of at most three bytes into four base64 characters,
padding with `=`. -/
def b64EncGroup : List Nat → List Char
  | [a, b, c] =>
    [b64CharOf (a / 4), b64CharOf (a % 4 * 16 + b / 16),
     b64CharOf (b % 16 * 4 + c / 64), b64CharOf (c % 64)]
  | [a, b] =>
    [b64CharOf (a / 4), b64CharOf (a % 4 * 16 + b / 16),
     b64CharOf (b % 16 * 4), '=']
  | [a] => [b64CharOf (a / 4), b64CharOf (a % 4 * 16), '=', '=']
  | _ => []

/-- Model of `base64.urlsafe_b64encode(bs).decode()`. -/
def b64encode (bs : List Nat) : String :=
  String.mk ((chunkList 3 bs).map b64EncGroup).flatten

/-- Decode one group of 2 to 4 base64 values into bytes. -/
def b64DecGroup : List Nat → List Nat
  | [a, b, c, d] => [a * 4 + b / 16, b % 16 * 16 + c / 4, c % 4 * 64 + d]
  | [a, b, c] => [a * 4 + b / 16, b % 16 * 16 + c / 4]
  | [a, b] => [a * 4 + b / 16]
  | _ => []

/-- The message of the `binascii.Error` raised when the number of base64
data characters is 1 more than a multiple of 4 (count elided). -/
def b64ErrMsg : String :=
  "Invalid base64-encoded string: number of data characters cannot be 1 more than a multiple of 4"

/-- The `str` of a `UnicodeDecodeError` (detail elided). -/
def utf8ErrMsg : String := "invalid utf-8 byte"

/-- The `str` of the `json.JSONDecodeError` on a non-JSON payload. -/
def jsonErrMsg : String := "Expecting value: line 1 column 1 (char 0)"

/-- Model of `base64.urlsafe_b64decode` in CPython's lenient (non-strict)
mode: characters outside the alphabet (including all `=` padding) are
discarded; a data length of 1 mod 4 raises `binascii.Error`. -/
def b64decodeLenient (s : String) : Except String (List Nat) :=
  let vals := s.data.filterMap b64ValOf
  if vals.length % 4 = 1 then .error b64ErrMsg
  else .ok ((chunkList 4 vals).map b64DecGroup).flatten

/-- Interface of the external `cryptography.fernet.Fernet` object held by
`ActivationGenerator` and the server: an encrypt function and a decrypt
function that fails (raises `InvalidToken`, modelled as `none`) on anything
that is not an authentic token. -/
structure Cipher where
  encrypt : List Nat → List Nat
  decrypt : List Nat → Option (List Nat)

/-- The decrypted activation payload, mirroring the dict built by
`ActivationGenerator.generate` / `generate_professional_activation_code`.
`extraKey`/`extraVal` hold the ninth entry, whose key is `note` in the
codec class and `product_name` in the server generator. -/
structure ActivationData where
  email : String
  product_type : String
  days_valid : Nat
  generated_at : Nat
  valid_until : Nat
  max_devices : Nat
  purchase_id : String
  extraKey : String
  extraVal : String
  version : String
  checksum : String
deriving DecidableEq

/-- Model of `json.dumps(activation_data, separators=(",", ":"))` over the
insertion-ordered dict of the source (checksum added last); timestamps are
serialized as quoted decimal seconds standing for ISO strings. -/
def serializeActivation (d : ActivationData) : String :=
  "\x7b\"email\":\"" ++ d.email ++
  "\",\"product_type\":\"" ++ d.product_type ++
  "\",\"days_valid\":" ++ toString d.days_valid ++
  ",\"generated_at\":\"" ++ toString d.generated_at ++
  "\",\"valid_until\":\"" ++ toString d.valid_until ++
  "\",\"max_devices\":" ++ toString d.max_devices ++
  ",\"purchase_id\":\"" ++ d.purchase_id ++
  "\",\"" ++ d.extraKey ++ "\":\"" ++ d.extraVal ++
  "\",\"version\":\"" ++ d.version ++
  "\",\"checksum\":\"" ++ d.checksum ++ "\"\x7d"

/-- Consume an expected literal prefix (computed over the character
lists so that proofs can evaluate it). -/
def eatLit (pre s : String) : Except String String :=
  if s.data.take pre.data.length = pre.data then
    .ok (String.mk (s.data.drop pre.data.length))
  else .error jsonErrMsg

/-- Read a string value up to the closing quote. -/
def eatStr (s : String) : Except String (String × String) :=
  let v := s.data.takeWhile (fun c => c != '\"')
  if v.length < s.data.length then
    .ok (String.mk v, String.mk (s.data.drop (v.length + 1)))
  else .error jsonErrMsg

/-- Read a decimal number. -/
def eatNat (s : String) : Except String (Nat × String) :=
  let v := s.data.takeWhile (fun c => c.isDigit)
  if v.length = 0 then .error jsonErrMsg
  else
    .ok (v.foldl (fun acc c => acc * 10 + (c.toNat - 48)) 0,
         String.mk (s.data.drop v.length))

/-- Model of `json.loads` specialised to the canonical payload shape the
codec serializes (the only shape reachable from the encoders); anything
else fails like a `json.JSONDecodeError`/`KeyError` caught by the source. -/
def parseActivation (s : String) : Except String ActivationData := do
  let s ← eatLit "\x7b\"email\":\"" s
  let (email, s) ← eatStr s
  let s ← eatLit ",\"product_type\":\"" s
  let (ptype, s) ← eatStr s
  let s ← eatLit ",\"days_valid\":" s
  let (days, s) ← eatNat s
  let s ← eatLit ",\"generated_at\":\"" s
  let (gat, s) ← eatNat s
  let s ← eatLit "\",\"valid_until\":\"" s
  let (vu, s) ← eatNat s
  let s ← eatLit "\",\"max_devices\":" s
  let (md, s) ← eatNat s
  let s ← eatLit ",\"purchase_id\":\"" s
  let (pid, s) ← eatStr s
  let s ← eatLit ",\"" s
  let (ekey, s) ← eatStr s
  let s ← eatLit ":\"" s
  let (eval0, s) ← eatStr s
  let s ← eatLit ",\"version\":\"" s
  let (ver, s) ← eatStr s
  let s ← eatLit ",\"checksum\":\"" s
  let (cks, s) ← eatStr s
  let s ← eatLit "\x7d" s
  if s = "" then
    .ok ⟨email, ptype, days, gat, vu, md, pid, ekey, eval0, ver, cks⟩
  else .error jsonErrMsg

/-- Prefix of the `verify` except-branch message `"激活码无效: {str(e)}"`. -/
def invalidMsgPre : String := "激活码无效: "

/-- `verify`'s checksum-mismatch message. -/
def checksumFailMsg : String := "激活码校验失败"

/-- `verify`'s expired-code message. -/
def expiredMsg : String := "激活码已过期"

/-- `verify`'s success message. -/
def validMsg : String := "激活码有效"

/-- `code_clean = activation_code.replace("-", "").replace(" ", "")`. -/
def cleanCode (s : String) : String :=
  String.mk (s.data.filter (fun c => c != '-' && c != ' '))

/-- The shared decode pipeline of `ActivationGenerator.verify` and
`ActivationGenerator.decode`: strip formatting, re-pad, base64-decode,
decrypt with the Fernet cipher, decode UTF-8, parse JSON.  The error
string models `str(e)` of the exception the corresponding stage raises
(`str(InvalidToken())` is empty). -/
def decodePipelineE (c : Cipher) (s : String) : Except String ActivationData :=
  let clean := cleanCode s
  let padded := clean ++ String.mk (List.replicate (4 - clean.length % 4) '=')
  match b64decodeLenient padded with
  | .error e => .error e
  | .ok bytes =>
    match c.decrypt bytes with
    | none => .error ""
    | some pt =>
      match utf8Decode pt with
      | none => .error utf8ErrMsg
      | some str => parseActivation str

/-- The activation dict built by `ActivationGenerator.generate`
(`src/utils/code_generator.py` lines 24-40): note the checksum digest is
over `email:product_type:days_valid` only. -/
def ActivationGenerator.payload (email product_type : String)
    (days_valid max_devices : Nat) (purchase_id note : String) (now : Nat) :
    ActivationData :=
  { email := email
    product_type := product_type
    days_valid := days_valid
    generated_at := now
    valid_until := now + days_valid * 86400
    max_devices := max_devices
    purchase_id := purchase_id
    extraKey := "note"
    extraVal := note
    version := "2.0"
    checksum := md5hex8 (email ++ ":" ++ product_type ++ ":" ++ toString days_valid) }

/-- The full urlsafe-base64 encoding of the encrypted payload, before
display formatting (`activation_code` in the source). -/
def ActivationGenerator.fullCode (c : Cipher) (email product_type : String)
    (days_valid max_devices : Nat) (purchase_id note : String) (now : Nat) :
    String :=
  b64encode (c.encrypt (utf8Encode (serializeActivation
    (ActivationGenerator.payload email product_type days_valid max_devices
      purchase_id note now))))

/-- `ActivationGenerator.generate`: returns the display-formatted code
(8-character groups joined by `-`, truncated to 59 characters) and the
activation dict. -/
def ActivationGenerator.generate (c : Cipher) (email product_type : String)
    (days_valid max_devices : Nat) (purchase_id note : String) (now : Nat) :
    String × ActivationData :=
  let data := ActivationGenerator.payload email product_type days_valid
    max_devices purchase_id note now
  let activation_code := ActivationGenerator.fullCode c email product_type
    days_valid max_devices purchase_id note now
  let formatted_code :=
    (String.intercalate "-" (chunkStr 8 activation_code)).take 59
  (formatted_code, data)

/-- Result triple of `ActivationGenerator.verify`: `(bool, message, dict)`;
`data = none` models the empty dict `{}`, `data = some (d, r)` the decoded
dict with `days_remaining = r` added. -/
structure VerifyResult where
  success : Bool
  message : String
  data : Option (ActivationData × Nat)
deriving DecidableEq

/-- `ActivationGenerator.verify` (`src/utils/code_generator.py` lines
57-90): runs the decode pipeline, recomputes the 3-field checksum,
checks expiry against the current time, and catches every exception into
`(False, "激活码无效: " + str(e), {})`. -/
def ActivationGenerator.verify (c : Cipher) (now : Nat) (s : String) :
    VerifyResult :=
  match decodePipelineE c s with
  | .error e => ⟨false, invalidMsgPre ++ e, none⟩
  | .ok d =>
    let expected := md5hex8 (d.email ++ ":" ++ d.product_type ++ ":" ++
      toString d.days_valid)
    if d.checksum ≠ expected then ⟨false, checksumFailMsg, none⟩
    else if now > d.valid_until then ⟨false, expiredMsg, none⟩
    else ⟨true, validMsg, some (d, (d.valid_until - now) / 86400)⟩

/-- `ActivationGenerator.decode` (lines 92-100): the same pipeline without
checksum or expiry checks; any failure yields the empty dict. -/
def ActivationGenerator.decode (c : Cipher) (s : String) :
    Option ActivationData :=
  match decodePipelineE c s with
  | .ok d => some d
  | .error _ => none

/-- `days_valid` chosen by product type in
`generate_professional_activation_code` (activation_server.py 210-222). -/
def profDaysValid (product_type : String) : Nat :=
  if product_type = "business" then 730
  else if product_type = "enterprise" then 1095
  else if product_type = "professional" then 365
  else 365

/-- `max_devices` chosen by product type in
`generate_professional_activation_code`. -/
def profMaxDevices (product_type : String) : Nat :=
  if product_type = "business" then 10
  else if product_type = "enterprise" then 99
  else if product_type = "professional" then 5
  else 3

/-- The activation dict built by `generate_professional_activation_code`
(activation_server.py 224-241): the checksum digest here covers
`email:product_type:days_valid:purchase_id` (four fields). -/
def profPayload (email product_type purchase_id product_name : String)
    (now : Nat) : ActivationData :=
  let days_valid := profDaysValid product_type
  { email := email
    product_type := product_type
    days_valid := days_valid
    generated_at := now
    valid_until := now + days_valid * 86400
    max_devices := profMaxDevices product_type
    purchase_id := purchase_id
    extraKey := "product_name"
    extraVal := product_name
    version := "2.0"
    checksum := md5hex8 (email ++ ":" ++ product_type ++ ":" ++
      toString days_valid ++ ":" ++ purchase_id) }

/-- Full untruncated `activation_code` of the professional generator. -/
def profFullCode (c : Cipher) (email product_type purchase_id
    product_name : String) (now : Nat) : String :=
  b64encode (c.encrypt (utf8Encode (serializeActivation
    (profPayload email product_type purchase_id product_name now))))

/-- The simple activation dict (activation_server.py 305-314). -/
structure SimpleData where
  email : String
  product_type : String
  generated_at : Nat
  valid_until : Nat
  max_devices : Nat
  days_valid : Nat
  activation_code : String
deriving DecidableEq

/-- `generate_simple_activation_code` (activation_server.py 267-316); the
random hex from `secrets.token_hex(6)` and the `%m%d` timestamp string are
inputs from the environment. -/
def generate_simple_activation_code (email product_type : String)
    (now : Nat) (randHex mmdd : String) : String × SimpleData :=
  let type_code :=
    if product_type = "personal" then "P"
    else if product_type = "professional" then "R"
    else if product_type = "business" then "B"
    else if product_type = "enterprise" then "E"
    else "P"
  let email_hash := ((md5hex email).take 4).toUpper
  let random_part := randHex.toUpper
  let activation_code := "PDF-" ++ (type_code ++ mmdd ++ "-" ++ email_hash ++
    "-" ++ random_part.take 4 ++ "-" ++ ((random_part.drop 4).take 4))
  let days_valid :=
    if product_type = "business" then 730
    else if product_type = "enterprise" then 1095
    else 365
  let max_devices :=
    if product_type = "professional" then 5
    else if product_type = "business" then 10
    else if product_type = "enterprise" then 99
    else 3
  (activation_code,
   { email := email
     product_type := product_type
     generated_at := now
     valid_until := now + days_valid * 86400
     max_devices := max_devices
     days_valid := days_valid
     activation_code := activation_code })

/-- Outcome data of `generate_professional_activation_code`: either the
encrypted-format dict or, on fallback, the simple-format dict. -/
inductive GenOutcome where
  | prof (d : ActivationData)
  | simple (d : SimpleData)
deriving DecidableEq

/-- `generate_professional_activation_code` (activation_server.py
202-265): with no cipher configured it falls back to the simple
unauthenticated code; otherwise it encrypts the payload and formats the
first 48 characters of the code into 8-character dash-separated groups,
truncated to at most 59 characters. -/
def generate_professional_activation_code (cipherOpt : Option Cipher)
    (email product_type purchase_id product_name : String) (now : Nat)
    (randHex mmdd : String) : String × GenOutcome :=
  match cipherOpt with
  | none =>
    let p := generate_simple_activation_code email product_type now randHex mmdd
    (p.1, GenOutcome.simple p.2)
  | some c =>
    let d := profPayload email product_type purchase_id product_name now
    let activation_code := profFullCode c email product_type purchase_id
      product_name now
    let formatted_code :=
      String.intercalate "-" (chunkStr 8 (activation_code.take 48))
    let formatted_code :=
      if formatted_code.length > 59 then formatted_code.take 59
      else formatted_code
    (formatted_code, GenOutcome.prof d)

/-- The code string the webhook/manual-activate handlers pass to
`save_activation_record`, which `save_to_database` INSERTs as
`activations.activation_code` — the column `check_activation` looks up
(activation_server.py 776-831, 494-527, 950-987). -/
def webhookStoredCode (cipherOpt : Option Cipher)
    (email product_type purchase_id product_name : String) (now : Nat)
    (randHex mmdd : String) : String :=
  (generate_professional_activation_code cipherOpt email product_type
    purchase_id product_name now randHex mmdd).1

/-- A row of the `device_activations` table declared in
`src/database/init_db.py` lines 94-105. -/
structure DeviceBinding where
  activation_id : Nat
  device_id : String
  device_name : String
  activated_at : Nat
  last_used : Nat
  is_active : Bool
deriving DecidableEq

/-- `count(device_activations where activation_id = aid and is_active)`. -/
def countActiveBindings (store : List DeviceBinding) (aid : Nat) : Nat :=
  (store.filter (fun b => b.activation_id == aid && b.is_active)).length

/-- Responses of the `/api/verify` handler (activation_server.py
1067-1116): the missing-code 400 error, or the always-successful
simulated verification body. -/
inductive ApiVerifyResponse where
  | errorMissing
  | success (product_type : String) (max_devices : Nat) (valid_until : Nat)
      (device_id device_name : String)
deriving DecidableEq

/-- `api_verify`: guesses the product type from the fifth character of the
code, fabricates `max_devices` and a one-year `valid_until`, and reports
success for every non-empty code; the presented token is never decrypted
and no error kind other than the missing-code 400 exists. -/
def api_verify (now : Nat) (activation_code : Option String)
    (device_id device_name : String) : ApiVerifyResponse :=
  match activation_code with
  | none => ApiVerifyResponse.errorMissing
  | some code =>
    if code = "" then ApiVerifyResponse.errorMissing
    else
      let product_type :=
        if code.length > 4 then
          let ch := code.data.getD 4 ' '
          if ch = 'B' then "business"
          else if ch = 'E' then "enterprise"
          else "personal"
        else "personal"
      let max_devices := if product_type = "personal" then 3 else 10
      ApiVerifyResponse.success product_type max_devices
        (now + 365 * 86400) device_id device_name

/-- The handler body contains no read or write of `activations` or
`device_activations` (activation_server.py 1067-1116), so its effect on
the persisted store is the identity. -/
def api_verify_with_store (now : Nat) (store : List DeviceBinding)
    (activation_code : Option String) (device_id device_name : String) :
    ApiVerifyResponse × List DeviceBinding :=
  (api_verify now activation_code device_id device_name, store)

/-- Run a batch of `/api/verify` requests sequentially, threading the
persisted device-activation store. -/
def runApiVerify (now : Nat) (store : List DeviceBinding)
    (reqs : List (Option String × String × String)) :
    List ApiVerifyResponse × List DeviceBinding :=
  reqs.foldl
    (fun acc r =>
      let out := api_verify_with_store now acc.2 r.1 r.2.1 r.2.2
      (acc.1 ++ [out.1], out.2))
    ([], store)

/-- Whether an `/api/verify` response is the success body. -/
def apiIsSuccess : ApiVerifyResponse → Bool
  | ApiVerifyResponse.success _ _ _ _ _ => true
  | ApiVerifyResponse.errorMissing => false

/-- `GumroadWebhook.get_days_valid` (src/utils/gumroad_webhook.py 55-63). -/
def GumroadWebhook.get_days_valid (product_type : String) : Nat :=
  if product_type = "personal" then 365
  else if product_type = "professional" then 365
  else if product_type = "business" then 730
  else if product_type = "enterprise" then 1095
  else 365

/-- `GumroadWebhook.get_max_devices` (src/utils/gumroad_webhook.py 65-73). -/
def GumroadWebhook.get_max_devices (product_type : String) : Nat :=
  if product_type = "personal" then 3
  else if product_type = "professional" then 5
  else if product_type = "business" then 10
  else if product_type = "enterprise" then 99
  else 3

/-- A concrete cipher instance used to evaluate theorems: a fixed
101-byte header marks authentic tokens, giving authenticated round
trips and the Fernet property that short or mangled inputs fail to
decrypt. -/
def mockCipher : Cipher where
  encrypt m := List.replicate 100 65 ++ 128 :: m
  decrypt t :=
    if t.take 101 = List.replicate 100 65 ++ [128] then some (t.drop 101)
    else none

/-- A degenerate cipher whose decrypt always yields the fixed plaintext
`pt`; used only to instantiate theorems quantified over every cipher. -/
def constCipher (pt : List Nat) : Cipher where
  encrypt m := m
  decrypt _ := some pt

/-- A checksum-consistent codec payload used in witnesses. -/
def goodPayload : ActivationData :=
  ActivationGenerator.payload "a@b.com" "personal" 365 3 "p1" "" 0

/-- Serialized bytes of `goodPayload`. -/
def goodBytes : List Nat := utf8Encode (serializeActivation goodPayload)

/-- `goodPayload` with its embedded checksum corrupted. -/
def badPayload : ActivationData :=
  { goodPayload with checksum := "00000000" }

/-- Serialized bytes of `badPayload`. -/
def badBytes : List Nat := utf8Encode (serializeActivation badPayload)

/-- The 10 concurrent bind attempts of the seat-limit scenario: one code,
ten distinct device ids, against an initially empty device store. -/
def seatScenarioReqs : List (Option String × String × String) :=
  (List.range 10).map
    (fun i => (some "TESTCODE0001", "device" ++ toString i, "Device"))

/-- C1: the seat-limit invariant is not enforced by the code.  Running the
claim's scenario (`maxDevices = 3`, 10 bind/verify attempts with 10
distinct device ids) through the `/api/verify` handler yields 10 success
outcomes — not 3 `Bound` and 7 `SeatLimitExceeded` — and the persisted
`device_activations` store is untouched, so the active-binding count is 0,
not 3. -/
theorem c1_no_seat_limit_enforcement :
    ((runApiVerify 0 [] seatScenarioReqs).1.filter apiIsSuccess).length = 10
    ∧ (runApiVerify 0 [] seatScenarioReqs).2 = []
    ∧ countActiveBindings (runApiVerify 0 [] seatScenarioReqs).2 1 = 0 := by
  decide

/-- C8: `/api/verify` does not produce the claimed discriminated result.
It reports success for a never-issued garbage token, fabricates the
product type from the token's fifth character and `max_devices` from a
two-value rule (10 for a guessed enterprise token, where the issuance
table says 99), and fixes `valid_until` at one year from now instead of
recovering it from the token. -/
theorem c8_fabricated_verification_result :
    api_verify 0 (some "AAAAEZZZZ") "dev1" "name1"
      = ApiVerifyResponse.success "enterprise" 10 (365 * 86400) "dev1" "name1"
    ∧ api_verify 0 (some "NEVERISSUEDTOKEN") "dev1" "name1"
      = ApiVerifyResponse.success "personal" 3 (365 * 86400) "dev1" "name1" := by
  decide

/-- C4: with no valid key at process start (`cipher = None`), issuance does
not fail closed: `generate_professional_activation_code` falls back to the
unauthenticated simple format, returning exactly the simple generator's
result, whose code string is the plain `PDF-...` form. -/
theorem c4_no_key_falls_back_open :
    ∀ (email product_type purchase_id product_name : String) (now : Nat)
      (randHex mmdd : String),
      generate_professional_activation_code none email product_type
          purchase_id product_name now randHex mmdd
        = ((generate_simple_activation_code email product_type now
              randHex mmdd).1,
           GenOutcome.simple (generate_simple_activation_code email
              product_type now randHex mmdd).2)
      ∧ ∃ rest,
        (generate_professional_activation_code none email product_type
            purchase_id product_name now randHex mmdd).1 = "PDF-" ++ rest := by
  intro email product_type purchase_id product_name now randHex mmdd
  exact ⟨rfl, ⟨_, rfl⟩⟩

/-- C9: at issuance, `days_valid` and `max_devices` are functions of the
product type alone, via the fixed tables personal = (365, 3),
professional = (365, 5), business = (730, 10), enterprise = (1095, 99) —
in the professional generator's payload, in the simple generator, and in
the webhook's lookup tables; in particular a business issuance yields
`max_devices = 10` and `days_valid = 730`. -/
theorem c9_product_type_tables :
    (∀ (email purchase_id product_name : String) (now : Nat),
      ((profPayload email "personal" purchase_id product_name now).days_valid
          = 365
        ∧ (profPayload email "personal" purchase_id product_name
            now).max_devices = 3)
      ∧ ((profPayload email "professional" purchase_id product_name
            now).days_valid = 365
        ∧ (profPayload email "professional" purchase_id product_name
            now).max_devices = 5)
      ∧ ((profPayload email "business" purchase_id product_name
            now).days_valid = 730
        ∧ (profPayload email "business" purchase_id product_name
            now).max_devices = 10)
      ∧ ((profPayload email "enterprise" purchase_id product_name
            now).days_valid = 1095
        ∧ (profPayload email "enterprise" purchase_id product_name
            now).max_devices = 99))
    ∧ (∀ (email : String) (now : Nat) (randHex mmdd : String),
      ((generate_simple_activation_code email "personal" now randHex
            mmdd).2.days_valid = 365
        ∧ (generate_simple_activation_code email "personal" now randHex
            mmdd).2.max_devices = 3)
      ∧ ((generate_simple_activation_code email "professional" now randHex
            mmdd).2.days_valid = 365
        ∧ (generate_simple_activation_code email "professional" now randHex
            mmdd).2.max_devices = 5)
      ∧ ((generate_simple_activation_code email "business" now randHex
            mmdd).2.days_valid = 730
        ∧ (generate_simple_activation_code email "business" now randHex
            mmdd).2.max_devices = 10)
      ∧ ((generate_simple_activation_code email "enterprise" now randHex
            mmdd).2.days_valid = 1095
        ∧ (generate_simple_activation_code email "enterprise" now randHex
            mmdd).2.max_devices = 99))
    ∧ (GumroadWebhook.get_days_valid "personal" = 365
      ∧ GumroadWebhook.get_days_valid "professional" = 365
      ∧ GumroadWebhook.get_days_valid "business" = 730
      ∧ GumroadWebhook.get_days_valid "enterprise" = 1095
      ∧ GumroadWebhook.get_max_devices "personal" = 3
      ∧ GumroadWebhook.get_max_devices "professional" = 5
      ∧ GumroadWebhook.get_max_devices "business" = 10
      ∧ GumroadWebhook.get_max_devices "enterprise" = 99) := by
  refine ⟨fun email pid pname now => ?_, fun email now r m => ?_, ?_⟩
  · exact ⟨⟨rfl, rfl⟩, ⟨rfl, rfl⟩, ⟨rfl, rfl⟩, ⟨rfl, rfl⟩⟩
  · exact ⟨⟨rfl, rfl⟩, ⟨rfl, rfl⟩, ⟨rfl, rfl⟩, ⟨rfl, rfl⟩⟩
  · exact ⟨rfl, rfl, rfl, rfl, rfl, rfl, rfl, rfl⟩

/-- C2: the round-trip fails on the code.  For the concrete license
(`a@b.com`, personal, 365 days, 3 devices, purchase `p1`), the token
returned by `ActivationGenerator.generate` is the display form truncated
to 59 characters of a 388-character encoding; `verify` of that token
fails (so no field is recovered) and `decode` of it yields the empty
dict. -/
theorem c2_roundtrip_broken_by_truncation :
    (ActivationGenerator.fullCode mockCipher "a@b.com" "personal" 365 3
        "p1" "" 0).length = 388
    ∧ (ActivationGenerator.generate mockCipher "a@b.com" "personal" 365 3
        "p1" "" 0).1.length = 59
    ∧ (ActivationGenerator.verify mockCipher 0
        (ActivationGenerator.generate mockCipher "a@b.com" "personal" 365 3
          "p1" "" 0).1).success = false
    ∧ ActivationGenerator.decode mockCipher
        (ActivationGenerator.generate mockCipher "a@b.com" "personal" 365 3
          "p1" "" 0).1 = none := by
  decide

/-- C3: the persisted, indexed token is the truncated display string, not
the full ciphertext.  For a concrete business issuance, the code string
the webhook path hands to `save_activation_record` (stored as
`activations.activation_code`, the `check_activation` lookup key) is the
53-character dash-formatted truncation of the first 48 characters of the
440-character full encoding — not the full untruncated encoding. -/
theorem c3_truncated_display_string_persisted :
    webhookStoredCode (some mockCipher) "a@b.com" "business" "sale-123"
        "PDF Fusion Pro Business" 0 "" ""
      = String.intercalate "-" (chunkStr 8
          ((profFullCode mockCipher "a@b.com" "business" "sale-123"
            "PDF Fusion Pro Business" 0).take 48))
    ∧ webhookStoredCode (some mockCipher) "a@b.com" "business" "sale-123"
        "PDF Fusion Pro Business" 0 "" ""
      ≠ profFullCode mockCipher "a@b.com" "business" "sale-123"
          "PDF Fusion Pro Business" 0
    ∧ (webhookStoredCode (some mockCipher) "a@b.com" "business" "sale-123"
        "PDF Fusion Pro Business" 0 "" "").length = 53
    ∧ (profFullCode mockCipher "a@b.com" "business" "sale-123"
        "PDF Fusion Pro Business" 0).length = 440 := by
  decide

/-- C5 counterexample: two decode failures of different kinds (an
undecryptable empty input versus a base64 length error) are both
failures, yet their user-visible messages differ, because the except
branch embeds `str(e)` — the outcomes are not indistinguishable. -/
theorem c5_failure_messages_differ :
    (ActivationGenerator.verify mockCipher 0 "").success = false
    ∧ (ActivationGenerator.verify mockCipher 0 "A").success = false
    ∧ (ActivationGenerator.verify mockCipher 0 "").message
      ≠ (ActivationGenerator.verify mockCipher 0 "A").message := by
  decide

/-- C5 amended: every cryptographic or structural decode failure returns
the uniform shape `(False, "激活码无效: " + str(e), {})` — the boolean and
the data dict are identical across failure kinds, but the message embeds
the stage-specific exception text and so can distinguish them. -/
theorem c5_failures_uniform_except_message :
    ∀ (c : Cipher) (now : Nat) (s e : String),
      decodePipelineE c s = Except.error e →
      ActivationGenerator.verify c now s
        = ⟨false, invalidMsgPre ++ e, none⟩ := by
  intro c now s e h
  simp only [ActivationGenerator.verify, h]

/-- Witness for C5's amended theorem at the concrete failing input `""`. -/
theorem c5_failures_uniform_witness :
    ActivationGenerator.verify mockCipher 0 ""
      = ⟨false, invalidMsgPre ++ "", none⟩ :=
  c5_failures_uniform_except_message mockCipher 0 "" "" rfl

/-- C6 counterexample: for the concrete input (`a@b.com`, personal, 365,
purchase `p1`), the checksum the codec embeds is not the claimed digest of
`email:productType:daysValid:purchaseId` — the codec's digest omits the
purchase id. -/
theorem c6_codec_checksum_omits_purchase_id :
    (ActivationGenerator.payload "a@b.com" "personal" 365 3 "p1" "" 0).checksum
      ≠ md5hex8 ("a@b.com" ++ ":" ++ "personal" ++ ":" ++
          toString (365 : Nat) ++ ":" ++ "p1") := by
  decide

/-- C6 amended: the codec class embeds and recomputes a 3-field checksum
`digest(email:productType:daysValid)[:8]`, while the server generator
embeds the 4-field `digest(email:productType:daysValid:purchaseId)[:8]`;
on decode, a payload whose embedded checksum differs from the 3-field
recomputation fails with the checksum-failure outcome
`(False, "激活码校验失败", {})`. -/
theorem c6_checksum_fields_and_mismatch :
    (∀ (email product_type : String) (days_valid max_devices : Nat)
        (purchase_id note : String) (now : Nat),
      (ActivationGenerator.payload email product_type days_valid max_devices
          purchase_id note now).checksum
        = md5hex8 (email ++ ":" ++ product_type ++ ":" ++
            toString days_valid))
    ∧ (∀ (email product_type purchase_id product_name : String) (now : Nat),
      (profPayload email product_type purchase_id product_name now).checksum
        = md5hex8 (email ++ ":" ++ product_type ++ ":" ++
            toString (profDaysValid product_type) ++ ":" ++ purchase_id))
    ∧ (∀ (c : Cipher) (now : Nat) (s : String) (d : ActivationData),
      decodePipelineE c s = Except.ok d →
      d.checksum ≠ md5hex8 (d.email ++ ":" ++ d.product_type ++ ":" ++
          toString d.days_valid) →
      ActivationGenerator.verify c now s = ⟨false, checksumFailMsg, none⟩) := by
  refine ⟨?_, ?_, ?_⟩
  · intro email product_type days_valid max_devices purchase_id note now
    simp only [ActivationGenerator.payload]
  · intro email product_type purchase_id product_name now
    simp only [profPayload]
  · intro c now s d h hne
    simp only [ActivationGenerator.verify, h]
    rw [if_pos hne]

/-- Witness for C6's amended theorem: a decoded payload with a corrupted
embedded checksum yields the checksum-failure outcome. -/
theorem c6_checksum_mismatch_witness :
    ActivationGenerator.verify (constCipher badBytes) 0 ""
      = ⟨false, checksumFailMsg, none⟩ :=
  c6_checksum_fields_and_mismatch.2.2 (constCipher badBytes) 0 "" badPayload
    rfl (by decide)

/-- C7 counterexample: a cryptographically valid, checksum-consistent
token whose validity window has passed yields `(False, "激活码已过期", {})`:
the result's data dict is empty, carrying neither the decoded attributes
nor the expiry date, contrary to the claim. -/
theorem c7_expired_result_carries_no_data :
    ActivationGenerator.verify (constCipher goodBytes) 31536001 ""
      = ⟨false, expiredMsg, none⟩ := by
  decide

/-- C7 amended: a token that decrypts, parses and passes the checksum
check returns the fixed expired message with an empty dict when
`validUntil` is before the current time (distinguishable from invalid
only by the message string), and verifies successfully — returning the
decoded attributes plus `days_remaining` — when `validUntil` is not
before the current time. -/
theorem c7_expiry_behaviour :
    ∀ (c : Cipher) (now : Nat) (s : String) (d : ActivationData),
      decodePipelineE c s = Except.ok d →
      d.checksum = md5hex8 (d.email ++ ":" ++ d.product_type ++ ":" ++
          toString d.days_valid) →
      (now > d.valid_until →
        ActivationGenerator.verify c now s = ⟨false, expiredMsg, none⟩)
      ∧ (¬ now > d.valid_until →
        ActivationGenerator.verify c now s
          = ⟨true, validMsg, some (d, (d.valid_until - now) / 86400)⟩) := by
  intro c now s d h hcs
  constructor
  · intro hexp
    simp only [ActivationGenerator.verify, h]
    rw [if_neg (not_not_intro hcs), if_pos hexp]
  · intro hnot
    simp only [ActivationGenerator.verify, h]
    rw [if_neg (not_not_intro hcs), if_neg hnot]

/-- Witness for C7's amended theorem: at time 0 the same good token
verifies successfully with 365 days remaining. -/
theorem c7_expiry_witness :
    ActivationGenerator.verify (constCipher goodBytes) 0 ""
      = ⟨true, validMsg, some (goodPayload, 365)⟩ :=
  (c7_expiry_behaviour (constCipher goodBytes) 0 "" goodPayload rfl rfl).2
    (by decide)

/-- C10: on every input whose decode pipeline fails (empty, malformed,
wrongly padded, tampered or undecryptable), `verify` returns a triple
with `False` and an empty dict, and `decode` returns the empty dict —
every exception is caught, none escapes to the caller. -/
theorem c10_verify_and_decode_never_raise :
    ∀ (c : Cipher) (now : Nat) (s e : String),
      decodePipelineE c s = Except.error e →
      (ActivationGenerator.verify c now s).success = false
      ∧ (ActivationGenerator.verify c now s).data = none
      ∧ ActivationGenerator.decode c s = none := by
  intro c now s e h
  refine ⟨?_, ?_, ?_⟩
  · simp only [ActivationGenerator.verify, h]
  · simp only [ActivationGenerator.verify, h]
  · simp only [ActivationGenerator.decode, h]

/-- Witness for C10 at the concrete malformed input `"A"`. -/
theorem c10_never_raise_witness :
    (ActivationGenerator.verify mockCipher 0 "A").success = false
    ∧ (ActivationGenerator.verify mockCipher 0 "A").data = none
    ∧ ActivationGenerator.decode mockCipher "A" = none :=
  c10_verify_and_decode_never_raise mockCipher 0 "A" b64ErrMsg rfl
